import Mathlib

/-!
Shallow embedding of the pass-gen program (src/main.rs): token pools,
CLI configuration parsing, the entropy reporter and the main output loop,
together with theorems checking the specification claims against it.
-/

/-- Process termination channels of the program.  The `error!` macro in
main.rs prints a line of the form "pass-gen: <msg>" to the diagnostic
stream and exits with status 1 (`cliError`).  A failed `Result::unwrap`
(as in the line-reading and terminal-width code) aborts the process via a
Rust panic, which prints an unformatted panic message and exits with
status 101 (`panicked`). -/
inductive Exit where
  | cliError (msg : String)
  | panicked (msg : String)
deriving DecidableEq, Repr

/-- Exit status of the process for each termination channel: `exit(1)` for
the `error!` macro, 101 for a Rust panic. -/
def Exit.status : Exit → Nat
  | .cliError _ => 1
  | .panicked _ => 101

/-- Diagnostic line in the "pass-gen: <message>" format, produced only by
the `error!` macro; a panic does not use this format. -/
def Exit.passGenLine : Exit → Option String
  | .cliError m => some ("pass-gen: " ++ m)
  | .panicked _ => none

/-- TokenData from main.rs: either a static built-in token list or an owned
list loaded from a file. -/
inductive TokenData where
  | Static (xs : List String)
  | Owned (xs : List String)
deriving DecidableEq, Repr

/-- TokenData::len. -/
def TokenData.len : TokenData → Nat
  | .Static xs => xs.length
  | .Owned xs => xs.length

/-- TokenData::get.  Rust indexing `x[idx]` panics when `idx` is out of
bounds; the out-of-bounds panic is modelled as `none`. -/
def TokenData.get? : TokenData → Nat → Option String
  | .Static xs, idx => xs.get? idx
  | .Owned xs, idx => xs.get? idx

/-- Defaults provided by one preset of the `data` module.  Modelled from
the spec: the `data` module source (data::word, data::ascii, data::number)
is not under src/; per the spec each built-in preset supplies a default
token count, a default separator and a fixed token list, with unspecified
concrete values, so the development is parameterised over them. -/
structure PresetData where
  TOKEN_COUNT : Nat
  TOKEN_SEP : String
  TOKEN_DATA : List String
deriving DecidableEq, Repr

/-- Config from main.rs.  `token_count` is a Rust u32, modelled as a Nat
that the count parser bounds below 2^32. -/
structure Config where
  report : Bool
  token_count : Nat
  token_sep : String
  token_data : TokenData
deriving DecidableEq, Repr

/-- Config::default: the word preset with report off. -/
def Config.defaultFrom (word : PresetData) : Config :=
  { report := false
    token_count := word.TOKEN_COUNT
    token_sep := word.TOKEN_SEP
    token_data := .Static word.TOKEN_DATA }

/-- Value of a list of ASCII digit characters read as a decimal numeral,
most significant first. -/
def digitsVal (cs : List Char) : Nat :=
  cs.foldl (fun acc c => acc * 10 + (c.toNat - 48)) 0

/-- Rust `str::parse::<u32>`: an optional leading plus sign followed by one
or more ASCII digits, with the value required to fit in 32 bits; anything
else (empty string, other characters, a minus sign, overflow) is a parse
error, modelled as `none`. -/
def parseU32 (s : String) : Option Nat :=
  let cs := match s.data with
    | '+' :: rest => rest
    | cs => cs
  if cs = [] then none
  else if cs.all (fun c => c.isDigit) then
    let v := digitsVal cs
    if v < 2 ^ 32 then some v else none
  else none

/-- Config::get_number for an already-fetched argument string: accepted
exactly when it parses as a u32 strictly greater than zero, otherwise the
`error!` macro fires. -/
def getNumber (flag s : String) : Except Exit Nat :=
  match parseU32 s with
  | some i =>
      if i > 0 then .ok i
      else .error (.cliError ("invalid argument to \"" ++ flag ++ "\", expected positve number got \"" ++ s ++ "\""))
  | none => .error (.cliError ("invalid argument to \"" ++ flag ++ "\", expected positve number got \"" ++ s ++ "\""))

/-- Result of reading one line from an opened token file: the payload with
the line terminator stripped, or an I/O error message. -/
def LineResult : Type := Except String String

/-- A file system: maps a path to the result of File::open, namely an open
error message or the sequence of per-line read results. -/
def FileSys : Type := String → Except String (List (Except String String))

/-- The `.map(Result::unwrap).collect()` step on the line iterator of the
token file: returns the line payloads verbatim, or aborts via panic at the
first line whose read failed. -/
def unwrapLines : List (Except String String) → Except Exit (List String)
  | [] => .ok []
  | .ok s :: rest => (unwrapLines rest).map (fun ls => s :: ls)
  | .error e :: _ => .error (.panicked e)

/-- The argument-processing loop of Config::new, folding the remaining
argument list over the accumulated configuration.  Mirrors the `while let`
loop: each iteration consumes the flag and, for flags taking a value, the
following argument (erroring like get_string when it is missing). -/
def parseArgs (fs : FileSys) (word ascii number : PresetData) :
    List String → Config → Except Exit Config
  | [], config => .ok config
  | flag :: rest, config =>
    if flag = "-r" ∨ flag = "--report" then
      parseArgs fs word ascii number rest { config with report := true }
    else if flag = "-c" ∨ flag = "--count" then
      match rest with
      | [] => .error (.cliError ("missing argument to " ++ flag))
      | s :: rest2 =>
        match getNumber flag s with
        | .ok k => parseArgs fs word ascii number rest2 { config with token_count := k }
        | .error e => .error e
    else if flag = "-s" ∨ flag = "--sep" then
      match rest with
      | [] => .error (.cliError ("missing argument to " ++ flag))
      | s :: rest2 => parseArgs fs word ascii number rest2 { config with token_sep := s }
    else if flag = "-f" ∨ flag = "--file" then
      match rest with
      | [] => .error (.cliError ("missing argument to " ++ flag))
      | path :: rest2 =>
        match fs path with
        | .ok lineResults =>
          match unwrapLines lineResults with
          | .ok ls => parseArgs fs word ascii number rest2 { config with token_data := .Owned ls }
          | .error e => .error e
        | .error e => .error (.cliError ("error while reading token file: " ++ e))
    else if flag = "-p" ∨ flag = "--preset" then
      match rest with
      | [] => .error (.cliError ("missing argument to " ++ flag))
      | preset :: rest2 =>
        if preset = "ascii" then
          parseArgs fs word ascii number rest2
            { report := config.report
              token_count := ascii.TOKEN_COUNT
              token_sep := ascii.TOKEN_SEP
              token_data := .Static ascii.TOKEN_DATA }
        else if preset = "number" then
          parseArgs fs word ascii number rest2
            { report := config.report
              token_count := number.TOKEN_COUNT
              token_sep := number.TOKEN_SEP
              token_data := .Static number.TOKEN_DATA }
        else if preset = "word" then
          parseArgs fs word ascii number rest2
            { report := config.report
              token_count := word.TOKEN_COUNT
              token_sep := word.TOKEN_SEP
              token_data := .Static word.TOKEN_DATA }
        else .error (.cliError ("invalid preset \"" ++ preset ++ "\""))
    else .error (.cliError ("invalid option \"" ++ flag ++ "\""))

/-- Config::new: starts from the default (word-preset) configuration and
processes the arguments from index 1, skipping the program name at
index 0. -/
def ConfigNew (fs : FileSys) (word ascii number : PresetData)
    (args : List String) : Except Exit Config :=
  parseArgs fs word ascii number (args.drop 1) (Config.defaultFrom word)

/-- Time constant from main.rs: MINUTE = 60.0 seconds.  The reporter time
constants are all exactly representable in f64, so the rational model is
exact. -/
def MINUTE : ℚ := 60

/-- Time constant from main.rs: HOUR = MINUTE * 60.0. -/
def HOUR : ℚ := MINUTE * 60

/-- Time constant from main.rs: DAY = HOUR * 24.0. -/
def DAY : ℚ := HOUR * 24

/-- Time constant from main.rs: YEAR = DAY * 365.25 (365.25 = 1461/4). -/
def YEAR : ℚ := DAY * (1461 / 4)

/-- Time constant from main.rs: CENTURY = YEAR * 100.0. -/
def CENTURY : ℚ := YEAR * 100

/-- Rounding to an integer as performed by the Rust "{:.0}" format
specifier: round to nearest, ties to even. -/
def roundTE (x : ℚ) : ℤ :=
  let f := Int.floor x
  let frac := x - f
  if frac < 1 / 2 then f
  else if 1 / 2 < frac then f + 1
  else if f % 2 = 0 then f else f + 1

/-- Decimal exponent of a value x ≥ 1: the largest k with 10^k ≤ x. -/
def decExp (x : ℚ) : Nat :=
  Nat.log 10 (Int.toNat (Int.floor x))

/-- Rendering of a positive value x ≥ 1 by the Rust "{:.0e}" format
specifier followed by the replace step of format_unit, which rewrites the
"e" marker to "e+": the mantissa x / 10^decExp(x) lies in [1, 10) and is
rounded to a single digit; when rounding carries it to 10 the rendered
value is 1 with the exponent increased by one. -/
def fmtExp0 (x : ℚ) : String :=
  if 10 ≤ roundTE (x / 10 ^ decExp x) then "1e+" ++ toString (decExp x + 1)
  else toString (roundTE (x / 10 ^ decExp x)) ++ "e+" ++ toString (decExp x)

/-- Reporter::format_unit: values below one million are rendered with zero
decimal places, larger ones in exponential notation with the explicit "e+"
marker. -/
def format_unit (x : ℚ) (unit : String) : String :=
  if x < 1000000 then toString (roundTE x) ++ " " ++ unit
  else fmtExp0 x ++ " " ++ unit

/-- Reporter::format_time: tiered selection of a human-readable unit. -/
def format_time (t : ℚ) : String :=
  if t < 1 then "less than a second"
  else if t < MINUTE then format_unit t "seconds"
  else if t < HOUR then format_unit (t / MINUTE) "minutes"
  else if t < DAY then format_unit (t / HOUR) "hours"
  else if t < YEAR then format_unit (t / DAY) "days"
  else if t < CENTURY then format_unit (t / YEAR) "years"
  else format_unit (t / CENTURY) "centuries"

/-- Reporter from main.rs: pool size and token count as f64, modelled as
exact reals. -/
structure Reporter where
  pool_size : ℝ
  token_count : ℝ

/-- Reporter::new. -/
def Reporter.new (pool_size token_count : ℝ) : Reporter :=
  { pool_size := pool_size, token_count := token_count }

/-- The entropy value computed by Reporter::print_report:
self.pool_size.log2(). -/
noncomputable def Reporter.entropy (r : Reporter) : ℝ :=
  Real.logb 2 r.pool_size

/-- The total entropy computed by Reporter::print_report:
entropy * self.token_count. -/
noncomputable def Reporter.total_entropy (r : Reporter) : ℝ :=
  r.entropy * r.token_count

/-- The f64 exp2 function, modelled as the exact real power of two. -/
noncomputable def exp2 (x : ℝ) : ℝ :=
  (2 : ℝ) ^ x

/-- The three guess-time rows of Reporter::print_report, in print order:
each rate label with the duration (total_entropy - offset).exp2() passed
to format_time. -/
noncomputable def Reporter.guessTimes (r : Reporter) : List (String × ℝ) :=
  [("1 billion / second", exp2 (r.total_entropy - 31)),
   ("1 quadrillion / second", exp2 (r.total_entropy - 51)),
   ("1 sextillion / second", exp2 (r.total_entropy - 71))]

/-- Outcome of the `tput cols` probe in Reporter::get_term_width: the
spawn itself may fail (Command::output returns Err), or it yields captured
standard output which either is not valid UTF-8 or decodes to a string. -/
inductive TputResult where
  | spawnErr
  | nonUtf8
  | utf8 (stdout : String)
deriving DecidableEq, Repr

/-- Rust `str::trim`: the string with leading and trailing whitespace
removed, computed on the character list. -/
def rustTrim (s : String) : String :=
  String.mk (((s.data.dropWhile Char.isWhitespace).reverse.dropWhile Char.isWhitespace).reverse)

/-- Rust `str::parse::<usize>` on a 64-bit target: same grammar as the u32
parser with a 64-bit bound. -/
def parseUsize (s : String) : Option Nat :=
  let cs := match s.data with
    | '+' :: rest => rest
    | cs => cs
  if cs = [] then none
  else if cs.all (fun c => c.isDigit) then
    let v := digitsVal cs
    if v < 2 ^ 64 then some v else none
  else none

/-- Reporter::get_term_width.  The closure inside `.map` runs only when the
spawn succeeded; its two `unwrap` calls (UTF-8 decoding and parsing) abort
via panic, while only a spawn error reaches the final `.unwrap_or(80)`. -/
def getTermWidth : TputResult → Except Exit Nat
  | .spawnErr => .ok 80
  | .nonUtf8 => .error (.panicked "invalid utf-8 sequence")
  | .utf8 s =>
    match parseUsize (rustTrim s) with
    | some n => .ok n
    | none => .error (.panicked "invalid digit found in string")

/-- One event of the visible output of the program: a write to standard output
or a line written to the diagnostic stream. -/
inductive Ev where
  | out (s : String)
  | err (s : String)
deriving DecidableEq, Repr

/-- rng.gen_range(0..n): panics on an empty range (n = 0, modelled as
none); otherwise returns a value in [0, n).  The argument r abstracts the
draw taken from the thread-local RNG, reduced into the range. -/
def genRange (n r : Nat) : Option Nat :=
  if n = 0 then none else some (r % n)

/-- The generation loop of main, from iteration i with the given number of
iterations remaining: each iteration samples an index with gen_range over
the pool range 0..len and looks the token up; the tokens are collected in
print order.  A gen_range panic (empty pool) or out-of-bounds lookup panic
aborts. -/
def genTokensFrom (td : TokenData) (rands : Nat → Nat) :
    Nat → Nat → Except Exit (List String)
  | _, 0 => .ok []
  | i, remaining + 1 =>
    match genRange td.len (rands i) with
    | none => .error (.panicked "cannot sample empty range")
    | some idx =>
      match td.get? idx with
      | none => .error (.panicked "index out of bounds")
      | some tok => (genTokensFrom td rands (i + 1) remaining).map (fun ts => tok :: ts)

/-- The tokens printed by the loop `for i in 1..=token_count` of main. -/
def genTokens (td : TokenData) (rands : Nat → Nat) (count : Nat) :
    Except Exit (List String) :=
  genTokensFrom td rands 1 count

/-- The standard-output events of the generation loop: each iteration
prints its token, followed by the separator exactly when it is not the
last iteration. -/
def outEvs (sep : String) : List String → List Ev
  | [] => []
  | [t] => [.out t]
  | t :: ts => .out t :: .out sep :: outEvs sep ts

/-- Contents of standard output: concatenation of the out events in
order. -/
def stdoutOf (evs : List Ev) : String :=
  evs.foldr (fun e acc => match e with | .out s => s ++ acc | .err _ => acc) ""

/-- Lines of the diagnostic stream, in order. -/
def stderrOf (evs : List Ev) : List String :=
  evs.foldr (fun e acc => match e with | .err s => s :: acc | .out _ => acc) []

/-- The separator line printed at the end of the report:
"-".repeat(width). -/
def dashLine (width : Nat) : String :=
  String.mk (List.replicate width '-')

/-- Reporter::print_report as an emitter of diagnostic events: the six
report lines followed by the separator line of dashes whose width
get_term_width probes, all on the diagnostic stream.  reportLines
abstracts the rendered text of the six numeric lines, whose content is
modelled by the Reporter and format definitions above; the probe outcome
is passed through getTermWidth, so a probe whose output is not valid
UTF-8 or does not parse aborts print_report via the unwrap panic. -/
def printReportEvs (reportLines : List String) (probe : TputResult) :
    Except Exit (List Ev) :=
  match getTermWidth probe with
  | .error e => .error e
  | .ok width => .ok ((reportLines ++ [dashLine width]).map Ev.err)

/-- The main function: parses the configuration, runs print_report when
the report was requested, then runs the generation loop and emits the
joined tokens to standard output.  An error exit (cliError or panic) is
modelled as the exit alone: events already emitted before a panic are not
tracked. -/
def mainRun (fs : FileSys) (word ascii number : PresetData)
    (probe : TputResult) (reportLines : List String) (rands : Nat → Nat)
    (args : List String) : Except Exit (List Ev) :=
  match ConfigNew fs word ascii number args with
  | .error e => .error e
  | .ok config =>
    match (if config.report then printReportEvs reportLines probe else .ok []) with
    | .error e => .error e
    | .ok rep =>
      match genTokens config.token_data rands config.token_count with
      | .error e => .error e
      | .ok toks => .ok (rep ++ outEvs config.token_sep toks)

/-- A file system with no readable files, used to instantiate the file
system parameter in closed statements that never read a file. -/
def fs0 : FileSys := fun _ => .error "no such file or directory"

/-- A file system holding one token file whose three lines read
successfully as " a ", "" and "b" (a line with surrounding whitespace, an
empty line, a plain line). -/
def fsWs : FileSys := fun p =>
  if p = "tokens.txt" then .ok [.ok " a ", .ok "", .ok "b"]
  else .error "no such file or directory"

/-- A file system holding one token file that opens successfully but whose
second line fails to read (the standard io error text for invalid UTF-8 in
a line read). -/
def fsBadLine : FileSys := fun p =>
  if p = "tokens.txt" then .ok [.ok "a", .error "stream did not contain valid UTF-8"]
  else .error "no such file or directory"

/-- A file system holding one token file that opens successfully and
contains no lines at all. -/
def fsEmptyFile : FileSys := fun p =>
  if p = "empty.txt" then .ok [] else .error "no such file or directory"

/-- Concrete stand-in for the word preset of the data module, used only to
instantiate the preset parameters in closed statements; the facts stated
with it do not depend on the particular values. -/
def wordP : PresetData :=
  { TOKEN_COUNT := 6, TOKEN_SEP := " ", TOKEN_DATA := ["alpha", "bravo", "charlie", "delta"] }

/-- Concrete stand-in for the ascii preset of the data module. -/
def asciiP : PresetData :=
  { TOKEN_COUNT := 20, TOKEN_SEP := "", TOKEN_DATA := ["!", "@", "#", "$"] }

/-- Concrete stand-in for the number preset of the data module. -/
def numberP : PresetData :=
  { TOKEN_COUNT := 8, TOKEN_SEP := "", TOKEN_DATA := ["0", "1", "2", "3", "4", "5", "6", "7", "8", "9"] }

/-- Pool construction as the specification words describe it, for
comparison with the pool the code builds: the non-empty trimmed lines of
the file. -/
def specPool (ls : List String) : List String :=
  (ls.map rustTrim).filter (fun l => l ≠ "")

/-- Join of the tail of a token list: the separator before each remaining
token.  Auxiliary form used to relate the print loop to
String.intercalate. -/
def tailJoin (sep : String) : List String → String
  | [] => ""
  | t :: ts => sep ++ t ++ tailJoin sep ts

/-- Helper: every value accepted by the u32 parser fits in 32 bits. -/
theorem parseU32_lt {s : String} {i : Nat} (h : parseU32 s = some i) : i < 2 ^ 32 := by
  unfold parseU32 at h
  dsimp only at h
  repeat' split at h
  all_goals simp_all

/-- C10: the token count is bounded by the u32 range: a count argument is
accepted exactly when it parses as a u32 strictly greater than zero, so
every accepted count lies in [1, 4294967295]; any other string (including
numerals above 4294967295, non-numeric strings and "0") is rejected with
the invalid-argument error of the error! macro, which exits with
status 1. -/
theorem C10_count_u32_bounded :
    (∀ flag s i, getNumber flag s = .ok i →
      1 ≤ i ∧ i ≤ 4294967295 ∧ parseU32 s = some i) ∧
    (∀ flag s, parseU32 s = none ∨ parseU32 s = some 0 →
      ∃ m, getNumber flag s = .error (.cliError m) ∧ (Exit.cliError m).status = 1) ∧
    parseU32 "4294967296" = none ∧
    parseU32 "4294967295" = some 4294967295 ∧
    parseU32 "0" = some 0 ∧
    parseU32 "abc" = none ∧
    parseU32 "-3" = none := by
  refine ⟨?_, ?_, by decide, by decide, by decide, by decide, by decide⟩
  · intro flag s i h
    unfold getNumber at h
    split at h
    · next v hv =>
      split at h
      · injection h with h2
        subst h2
        have hb := parseU32_lt hv
        exact ⟨by omega, by omega, hv⟩
      · exact Except.noConfusion h
    · exact Except.noConfusion h
  · intro flag s h
    refine ⟨"invalid argument to \"" ++ flag ++ "\", expected positve number got \"" ++ s ++ "\"", ?_, rfl⟩
    unfold getNumber
    rcases h with h | h <;> rw [h]
    rfl

/-- Witness for C10 at a concrete over-range input. -/
theorem C10_count_u32_bounded_witness :
    ∃ m, getNumber "-c" "4294967296" = .error (.cliError m) ∧ (Exit.cliError m).status = 1 :=
  C10_count_u32_bounded.2.1 "-c" "4294967296" (Or.inl (by decide))

/-- Helper: a lookup at an index below the pool length succeeds. -/
theorem TokenData.isSome_get? (td : TokenData) (i : Nat) (h : i < td.len) :
    (td.get? i).isSome := by
  cases td with
  | Static xs =>
    simp only [TokenData.len] at h
    rw [TokenData.get?, List.get?_eq_get h]
    rfl
  | Owned xs =>
    simp only [TokenData.len] at h
    rw [TokenData.get?, List.get?_eq_get h]
    rfl

/-- C9: for every pool of size at least one and every RNG draw, the
sampled index produced by gen_range over the pool range lies in [0, N), so
the subsequent get lookup is in bounds and cannot panic. -/
theorem C9_sampled_index_in_bounds (td : TokenData) (r : Nat) (h : 1 ≤ td.len) :
    ∃ i, genRange td.len r = some i ∧ i < td.len ∧ (td.get? i).isSome := by
  have hne : td.len ≠ 0 := by omega
  have hlt : r % td.len < td.len := Nat.mod_lt _ (by omega)
  refine ⟨r % td.len, by simp [genRange, hne], hlt, TokenData.isSome_get? td _ hlt⟩

/-- Witness for C9 at a concrete pool and draw. -/
theorem C9_sampled_index_in_bounds_witness :
    ∃ i, genRange (TokenData.Static ["alpha", "bravo"]).len 7 = some i ∧
      i < (TokenData.Static ["alpha", "bravo"]).len ∧
      ((TokenData.Static ["alpha", "bravo"]).get? i).isSome :=
  C9_sampled_index_in_bounds (.Static ["alpha", "bravo"]) 7 (by decide)

/-- C3 counterexample: when the probe spawns but its output does not parse
as a number, get_term_width does not substitute 80: the parse unwrap
panics, i.e. the failure is propagated as abnormal termination with
status 101. -/
theorem C3_counterexample :
    getTermWidth (.utf8 "abc") = .error (.panicked "invalid digit found in string") ∧
    (Exit.panicked "invalid digit found in string").status = 101 := by
  constructor <;> rfl

/-- C3 amended: get_term_width substitutes 80 only for a spawn failure;
captured output that is not valid UTF-8, or that does not parse as a
number after trimming, aborts via an unwrap panic, while parsable output
yields the parsed width. -/
theorem C3_width_fallback_only_on_spawn_error :
    getTermWidth .spawnErr = .ok 80 ∧
    getTermWidth .nonUtf8 = .error (.panicked "invalid utf-8 sequence") ∧
    (∀ s n, parseUsize (rustTrim s) = some n → getTermWidth (.utf8 s) = .ok n) ∧
    (∀ s, parseUsize (rustTrim s) = none →
      getTermWidth (.utf8 s) = .error (.panicked "invalid digit found in string")) := by
  refine ⟨rfl, rfl, ?_, ?_⟩
  · intro s n h
    simp [getTermWidth, h]
  · intro s h
    simp [getTermWidth, h]

/-- Witness for C3 amended: a parsable probe output yields its value. -/
theorem C3_width_fallback_only_on_spawn_error_witness :
    getTermWidth (.utf8 " 120 ") = .ok 120 :=
  C3_width_fallback_only_on_spawn_error.2.2.1 " 120 " 120 (by decide)

/-- C8: processing a preset flag replaces the preset-scoped fields
token_count, token_sep and token_data with the defaults of the named
built-in preset, whatever their prior values, while the report flag keeps
its previously accumulated value; the rest of the arguments are then
processed from that state. -/
theorem C8_preset_resets_scoped_fields (fs : FileSys) (w a n : PresetData)
    (pf : String) (cfg : Config) (rest : List String)
    (hf : pf = "-p" ∨ pf = "--preset") :
    parseArgs fs w a n (pf :: "ascii" :: rest) cfg =
      parseArgs fs w a n rest
        { report := cfg.report, token_count := a.TOKEN_COUNT,
          token_sep := a.TOKEN_SEP, token_data := .Static a.TOKEN_DATA } ∧
    parseArgs fs w a n (pf :: "number" :: rest) cfg =
      parseArgs fs w a n rest
        { report := cfg.report, token_count := n.TOKEN_COUNT,
          token_sep := n.TOKEN_SEP, token_data := .Static n.TOKEN_DATA } ∧
    parseArgs fs w a n (pf :: "word" :: rest) cfg =
      parseArgs fs w a n rest
        { report := cfg.report, token_count := w.TOKEN_COUNT,
          token_sep := w.TOKEN_SEP, token_data := .Static w.TOKEN_DATA } := by
  rcases hf with rfl | rfl <;> exact ⟨rfl, rfl, rfl⟩

/-- Witness for C8: a preset flag applied over a fully customised prior
state resets count, separator and pool but keeps report = true. -/
theorem C8_preset_resets_scoped_fields_witness :
    parseArgs fs0 wordP asciiP numberP ["-p", "ascii"]
      { report := true, token_count := 3, token_sep := "-", token_data := .Owned ["x"] } =
      .ok { report := true, token_count := asciiP.TOKEN_COUNT,
            token_sep := asciiP.TOKEN_SEP, token_data := .Static asciiP.TOKEN_DATA } := by
  have h := C8_preset_resets_scoped_fields fs0 wordP asciiP numberP "-p"
    { report := true, token_count := 3, token_sep := "-", token_data := .Owned ["x"] }
    [] (Or.inl rfl)
  rw [h.1]
  rfl

/-- Helper: unwrapping a fully successful sequence of line reads yields
the payloads verbatim. -/
theorem unwrapLines_ok (ls : List String) : unwrapLines (ls.map Except.ok) = .ok ls := by
  induction ls with
  | nil => rfl
  | cons s rest ih => simp [unwrapLines, ih, Except.map]

/-- Helper: unwrapping panics at the first failed line read. -/
theorem unwrapLines_err (pre : List String) (e : String)
    (post : List (Except String String)) :
    unwrapLines (pre.map Except.ok ++ .error e :: post) = .error (.panicked e) := by
  induction pre with
  | nil => rfl
  | cons s rest ih => simp [unwrapLines, ih, Except.map]

/-- C4 counterexample: a token file that opens successfully but whose
second line fails to read makes the program abort through the line-read
unwrap panic: exit status 101, not 1, and no pass-gen-formatted
diagnostic. -/
theorem C4_counterexample :
    ConfigNew fsBadLine wordP asciiP numberP ["pass-gen", "-f", "tokens.txt"] =
      .error (.panicked "stream did not contain valid UTF-8") ∧
    (Exit.panicked "stream did not contain valid UTF-8").status = 101 ∧
    (Exit.panicked "stream did not contain valid UTF-8").passGenLine = none := by
  exact ⟨rfl, rfl, rfl⟩

/-- C4 amended: a failure to open the token file aborts with the formatted
pass-gen diagnostic and exit status 1; a failure to read a line of an
opened file aborts via the unwrap panic, with exit status 101 and no
pass-gen-formatted diagnostic; in both cases the configuration never
parses, so main terminates with that exit and produces no output
events. -/
theorem C4_read_failure_aborts (fs : FileSys) (w a n : PresetData) :
    (∀ (cfg : Config) (ff path : String) (rest : List String) (e : String),
      (ff = "-f" ∨ ff = "--file") → fs path = .error e →
      parseArgs fs w a n (ff :: path :: rest) cfg =
        .error (.cliError ("error while reading token file: " ++ e)) ∧
      (Exit.cliError ("error while reading token file: " ++ e)).status = 1 ∧
      (Exit.cliError ("error while reading token file: " ++ e)).passGenLine =
        some ("pass-gen: " ++ ("error while reading token file: " ++ e))) ∧
    (∀ (cfg : Config) (ff path : String) (rest : List String)
      (pre : List String) (e : String) (post : List (Except String String)),
      (ff = "-f" ∨ ff = "--file") →
      fs path = .ok (pre.map Except.ok ++ .error e :: post) →
      parseArgs fs w a n (ff :: path :: rest) cfg = .error (.panicked e) ∧
      (Exit.panicked e).status = 101 ∧ (Exit.panicked e).passGenLine = none) ∧
    (∀ (probe : TputResult) (rl : List String) (rands : Nat → Nat)
      (args : List String) (e : Exit),
      ConfigNew fs w a n args = .error e →
      mainRun fs w a n probe rl rands args = .error e) := by
  refine ⟨?_, ?_, ?_⟩
  · intro cfg ff path rest e hf hfs
    rcases hf with rfl | rfl <;>
      exact ⟨by simp [parseArgs, hfs], rfl, rfl⟩
  · intro cfg ff path rest pre e post hf hfs
    rcases hf with rfl | rfl <;>
      exact ⟨by simp [parseArgs, hfs, unwrapLines_err], rfl, rfl⟩
  · intro probe rl rands args e h
    simp [mainRun, h]

/-- Witness for C4 amended: an unreadable path aborts with the formatted
diagnostic and status 1. -/
theorem C4_read_failure_aborts_witness :
    parseArgs fs0 wordP asciiP numberP ["-f", "missing.txt"] (Config.defaultFrom wordP) =
      .error (.cliError ("error while reading token file: " ++ "no such file or directory")) ∧
    (Exit.cliError ("error while reading token file: " ++ "no such file or directory")).status = 1 ∧
    (Exit.cliError ("error while reading token file: " ++ "no such file or directory")).passGenLine =
      some ("pass-gen: " ++ ("error while reading token file: " ++ "no such file or directory")) :=
  (C4_read_failure_aborts fs0 wordP asciiP numberP).1 (Config.defaultFrom wordP)
    "-f" "missing.txt" [] "no such file or directory" (Or.inl rfl) rfl

/-- C2 counterexample: a readable token file whose three lines are " a ",
"" and "b" yields the pool [" a ", "", "b"] of size 3, exactly the raw
lines: the line with surrounding whitespace is not trimmed and the empty
line does contribute a token, while the pool the claim describes (the
non-empty trimmed lines) would be ["a", "b"] of size 2. -/
theorem C2_counterexample :
    ConfigNew fsWs wordP asciiP numberP ["pass-gen", "-f", "tokens.txt"] =
      .ok { report := false, token_count := wordP.TOKEN_COUNT, token_sep := wordP.TOKEN_SEP,
            token_data := .Owned [" a ", "", "b"] } ∧
    specPool [" a ", "", "b"] = ["a", "b"] ∧
    TokenData.Owned [" a ", "", "b"] ≠ TokenData.Owned (specPool [" a ", "", "b"]) ∧
    (TokenData.Owned [" a ", "", "b"]).len = 3 ∧
    (TokenData.Owned (specPool [" a ", "", "b"])).len = 2 := by
  exact ⟨rfl, by decide, by decide, rfl, by decide⟩

/-- C2 amended: for every readable token file the resulting pool consists
of the lines of the file exactly as read, in order: no trimming is applied and
empty lines are kept, so a file with exactly 5 lines (empty or not)
yields a pool of size 5. -/
theorem C2_pool_is_verbatim_lines (fs : FileSys) (w a n : PresetData)
    (cfg : Config) (ff path : String) (rest : List String) (ls : List String)
    (hf : ff = "-f" ∨ ff = "--file") (hfs : fs path = .ok (ls.map Except.ok)) :
    parseArgs fs w a n (ff :: path :: rest) cfg =
      parseArgs fs w a n rest { cfg with token_data := .Owned ls } ∧
    (TokenData.Owned ls).len = ls.length := by
  rcases hf with rfl | rfl <;>
    exact ⟨by simp [parseArgs, hfs, unwrapLines_ok], rfl⟩

/-- Witness for C2 amended: a five-line file (one line empty, one padded)
yields the verbatim pool of size 5. -/
theorem C2_pool_is_verbatim_lines_witness :
    parseArgs
      (fun p => if p = "five.txt" then
        .ok [.ok "one", .ok " two ", .ok "", .ok "four", .ok "five"]
        else .error "no such file or directory")
      wordP asciiP numberP ["-f", "five.txt"] (Config.defaultFrom wordP) =
      parseArgs
        (fun p => if p = "five.txt" then
          .ok [.ok "one", .ok " two ", .ok "", .ok "four", .ok "five"]
          else .error "no such file or directory")
        wordP asciiP numberP []
        { Config.defaultFrom wordP with
            token_data := .Owned ["one", " two ", "", "four", "five"] } ∧
    (TokenData.Owned ["one", " two ", "", "four", "five"]).len = 5 :=
  C2_pool_is_verbatim_lines
    (fun p => if p = "five.txt" then
      .ok [.ok "one", .ok " two ", .ok "", .ok "four", .ok "five"]
      else .error "no such file or directory")
    wordP asciiP numberP (Config.defaultFrom wordP) "-f" "five.txt" []
    ["one", " two ", "", "four", "five"] (Or.inl rfl) rfl

/-- Helper: the accumulator form of String.intercalate. -/
theorem intercalate_go_eq (sep : String) (as : List String) :
    ∀ acc : String, String.intercalate.go acc sep as = acc ++ tailJoin sep as := by
  induction as with
  | nil =>
    intro acc
    simp [String.intercalate.go, tailJoin]
  | cons b bs ih =>
    intro acc
    rw [String.intercalate.go, ih, tailJoin]
    simp [String.append_assoc]

/-- Helper: the print loop emits the head token and then one separator
before each further token. -/
theorem stdoutOf_outEvs_cons (sep : String) :
    ∀ (as : List String) (a : String),
      stdoutOf (outEvs sep (a :: as)) = a ++ tailJoin sep as := by
  intro as
  induction as with
  | nil =>
    intro a
    simp [outEvs, stdoutOf, tailJoin]
  | cons b bs ih =>
    intro a
    simp only [outEvs, stdoutOf, List.foldr_cons, tailJoin] at ih ⊢
    rw [ih b]
    simp [String.append_assoc]

/-- Helper: the print loop writes exactly the separator-joined tokens to
standard output. -/
theorem stdoutOf_outEvs (sep : String) (toks : List String) :
    stdoutOf (outEvs sep toks) = String.intercalate sep toks := by
  cases toks with
  | nil => rfl
  | cons a as =>
    rw [stdoutOf_outEvs_cons, String.intercalate, intercalate_go_eq]

/-- Helper: the print loop writes nothing to the diagnostic stream. -/
theorem stderrOf_outEvs (sep : String) (toks : List String) :
    stderrOf (outEvs sep toks) = [] := by
  induction toks with
  | nil => rfl
  | cons a as ih =>
    cases as with
    | nil => rfl
    | cons b bs => simp only [outEvs, stderrOf, List.foldr_cons] at ih ⊢; exact ih

/-- Helper: diagnostic events contribute nothing to standard output. -/
theorem stdoutOf_err_first (rl : List String) (evs : List Ev) :
    stdoutOf (rl.map Ev.err ++ evs) = stdoutOf evs := by
  induction rl with
  | nil => rfl
  | cons x xs ih => simp only [List.map_cons, List.cons_append, stdoutOf, List.foldr_cons] at ih ⊢; exact ih

/-- Helper: diagnostic events emitted first appear before any diagnostic
output of the remaining events. -/
theorem stderrOf_err_first (rl : List String) (evs : List Ev) :
    stderrOf (rl.map Ev.err ++ evs) = rl ++ stderrOf evs := by
  induction rl with
  | nil => rfl
  | cons x xs ih =>
    simp only [List.map_cons, List.cons_append, stderrOf, List.foldr_cons] at ih ⊢
    rw [ih]

/-- Helper: a single diagnostic event contributes nothing to standard
output. -/
theorem stdoutOf_err_cons (s : String) (evs : List Ev) :
    stdoutOf (Ev.err s :: evs) = stdoutOf evs := rfl

/-- Helper: a single diagnostic event prepends its line to the diagnostic
stream. -/
theorem stderrOf_err_cons (s : String) (evs : List Ev) :
    stderrOf (Ev.err s :: evs) = s :: stderrOf evs := rfl

/-- Helper: over a non-empty pool the generation loop always succeeds,
producing one token per iteration, each drawn from the pool. -/
theorem genTokensFrom_ok (td : TokenData) (rands : Nat → Nat) (h : 1 ≤ td.len) :
    ∀ (k i : Nat), ∃ toks : List String,
      genTokensFrom td rands i k = .ok toks ∧ toks.length = k ∧
      ∀ t ∈ toks, ∃ j, j < td.len ∧ td.get? j = some t := by
  intro k
  induction k with
  | zero => intro i; exact ⟨[], rfl, rfl, by simp⟩
  | succ m ih =>
    intro i
    obtain ⟨toks, htoks, hlen, hmem⟩ := ih (i + 1)
    have hne : td.len ≠ 0 := by omega
    have hlt : rands i % td.len < td.len := Nat.mod_lt _ (by omega)
    obtain ⟨tok, htok⟩ := Option.isSome_iff_exists.mp (TokenData.isSome_get? td _ hlt)
    refine ⟨tok :: toks, ?_, by simp [hlen], ?_⟩
    · simp only [genTokensFrom, genRange, hne, if_false, htok, htoks, Except.map]
    · intro t ht
      rcases List.mem_cons.mp ht with rfl | ht2
      · exact ⟨rands i % td.len, hlt, htok⟩
      · exact hmem t ht2

/-- C1 counterexample: a configuration that parses successfully (count 1,
pool loaded from a readable but empty token file) under which the program
writes no tokens at all: gen_range panics on the empty pool range before
the first print, so the claim as stated over every successfully parsed
configuration fails. -/
theorem C1_counterexample :
    ConfigNew fsEmptyFile wordP asciiP numberP ["pass-gen", "-c", "1", "-f", "empty.txt"] =
      .ok { report := false, token_count := 1, token_sep := wordP.TOKEN_SEP,
            token_data := .Owned [] } ∧
    mainRun fsEmptyFile wordP asciiP numberP .spawnErr [] (fun _ => 0)
      ["pass-gen", "-c", "1", "-f", "empty.txt"] =
      .error (.panicked "cannot sample empty range") := by
  exact ⟨rfl, rfl⟩

/-- C1 amended: for every configuration that parses successfully with
token_count = k (k ≥ 1) and a non-empty token pool, and whose report
phase, when the report was requested, completes (the width probe either
fails to spawn, falling back to 80, or yields output parsing as the width
wdt, rather than aborting print_report through the get_term_width unwrap
panics), main writes exactly k sampled tokens to standard output, joined
by the configured separator with no separator after the final token and no
trailing newline, and the report lines followed by the dash separator
line, exactly when requested, are emitted before the tokens and only to
the diagnostic stream. -/
theorem C1_success_output (fs : FileSys) (w a n : PresetData)
    (probe : TputResult) (rl : List String) (rands : Nat → Nat)
    (args : List String) (cfg : Config) (wdt : Nat)
    (hcfg : ConfigNew fs w a n args = .ok cfg)
    (hk : 1 ≤ cfg.token_count) (hpool : 1 ≤ cfg.token_data.len)
    (hprobe : cfg.report = true → getTermWidth probe = .ok wdt) :
    ∃ toks : List String,
      toks.length = cfg.token_count ∧
      (∀ t ∈ toks, ∃ j, j < cfg.token_data.len ∧ cfg.token_data.get? j = some t) ∧
      mainRun fs w a n probe rl rands args =
        .ok ((if cfg.report then (rl ++ [dashLine wdt]).map Ev.err else []) ++
          outEvs cfg.token_sep toks) ∧
      stdoutOf ((if cfg.report then (rl ++ [dashLine wdt]).map Ev.err else []) ++
          outEvs cfg.token_sep toks) =
        String.intercalate cfg.token_sep toks ∧
      stderrOf ((if cfg.report then (rl ++ [dashLine wdt]).map Ev.err else []) ++
          outEvs cfg.token_sep toks) =
        (if cfg.report then rl ++ [dashLine wdt] else []) := by
  obtain ⟨toks, htoks, hlen, hmem⟩ :=
    genTokensFrom_ok cfg.token_data rands hpool cfg.token_count 1
  refine ⟨toks, hlen, hmem, ?_, ?_, ?_⟩
  · cases hr : cfg.report with
    | false => simp [mainRun, hcfg, hr, genTokens, htoks]
    | true =>
      have hw := hprobe hr
      simp [mainRun, hcfg, hr, printReportEvs, hw, genTokens, htoks]
  · cases cfg.report <;>
      simp [stdoutOf_err_first, stdoutOf_err_cons, stdoutOf_outEvs]
  · cases cfg.report <;>
      simp [stderrOf_err_first, stderrOf_err_cons, stderrOf_outEvs]

/-- Witness for C1 amended: two tokens with separator "-" and the report
requested, with a probe whose output "100" parses as the width. -/
theorem C1_success_output_witness :
    ∃ toks : List String,
      toks.length = (Config.mk true 2 "-" (.Static wordP.TOKEN_DATA)).token_count ∧
      (∀ t ∈ toks, ∃ j, j < (Config.mk true 2 "-" (.Static wordP.TOKEN_DATA)).token_data.len ∧
        (Config.mk true 2 "-" (.Static wordP.TOKEN_DATA)).token_data.get? j = some t) ∧
      mainRun fs0 wordP asciiP numberP (.utf8 "100") ["entropy report"] (fun _ => 1)
        ["pass-gen", "-r", "-s", "-", "-c", "2"] =
        .ok ((if (Config.mk true 2 "-" (.Static wordP.TOKEN_DATA)).report then
          ((["entropy report"] : List String) ++ [dashLine 100]).map Ev.err else []) ++
          outEvs (Config.mk true 2 "-" (.Static wordP.TOKEN_DATA)).token_sep toks) ∧
      stdoutOf ((if (Config.mk true 2 "-" (.Static wordP.TOKEN_DATA)).report then
          ((["entropy report"] : List String) ++ [dashLine 100]).map Ev.err else []) ++
          outEvs (Config.mk true 2 "-" (.Static wordP.TOKEN_DATA)).token_sep toks) =
        String.intercalate (Config.mk true 2 "-" (.Static wordP.TOKEN_DATA)).token_sep toks ∧
      stderrOf ((if (Config.mk true 2 "-" (.Static wordP.TOKEN_DATA)).report then
          ((["entropy report"] : List String) ++ [dashLine 100]).map Ev.err else []) ++
          outEvs (Config.mk true 2 "-" (.Static wordP.TOKEN_DATA)).token_sep toks) =
        (if (Config.mk true 2 "-" (.Static wordP.TOKEN_DATA)).report then
          (["entropy report"] : List String) ++ [dashLine 100] else []) :=
  C1_success_output fs0 wordP asciiP numberP (.utf8 "100") ["entropy report"] (fun _ => 1)
    ["pass-gen", "-r", "-s", "-", "-c", "2"]
    (Config.mk true 2 "-" (.Static wordP.TOKEN_DATA)) 100 rfl (by decide) (by decide)
    (fun _ => rfl)

/-- C5: the report computes entropy_per_token as log2 of the pool size and
total_entropy as entropy_per_token times the token count; for the powers
of two the spec names the value is exact: a pool of 1024 gives exactly
10 bits per token and a pool of 2 exactly 1 bit. -/
theorem C5_entropy_formula :
    (∀ ps tc : ℝ, (Reporter.new ps tc).entropy = Real.logb 2 ps ∧
      (Reporter.new ps tc).total_entropy = Real.logb 2 ps * tc) ∧
    (∀ tc : ℝ, (Reporter.new 1024 tc).entropy = 10) ∧
    (∀ tc : ℝ, (Reporter.new 2 tc).entropy = 1) := by
  refine ⟨fun ps tc => ⟨rfl, rfl⟩, ?_, ?_⟩
  · intro tc
    show Real.logb 2 1024 = 10
    rw [show (1024 : ℝ) = 2 ^ (10 : ℕ) by norm_num, Real.logb_pow,
      Real.logb_self_eq_one (by norm_num)]
    norm_num
  · intro tc
    show Real.logb 2 2 = 1
    exact Real.logb_self_eq_one (by norm_num)

/-- C6: the three guess-time rows of the report are, in this order, the
10^9/s, 10^15/s and 10^21/s rates with durations 2^(total_entropy - 31),
2^(total_entropy - 51) and 2^(total_entropy - 71) seconds; equivalently
2^total_entropy divided by 2^31, 2^51 and 2^71. -/
theorem C6_guess_time_offsets :
    ∀ r : Reporter,
      r.guessTimes =
        [("1 billion / second", exp2 (r.total_entropy - 31)),
         ("1 quadrillion / second", exp2 (r.total_entropy - 51)),
         ("1 sextillion / second", exp2 (r.total_entropy - 71))] ∧
      r.guessTimes.map Prod.snd =
        [(2 : ℝ) ^ r.total_entropy / (2 : ℝ) ^ (31 : ℝ),
         (2 : ℝ) ^ r.total_entropy / (2 : ℝ) ^ (51 : ℝ),
         (2 : ℝ) ^ r.total_entropy / (2 : ℝ) ^ (71 : ℝ)] := by
  intro r
  refine ⟨rfl, ?_⟩
  simp only [Reporter.guessTimes, List.map_cons, List.map_nil, exp2]
  rw [Real.rpow_sub (by norm_num), Real.rpow_sub (by norm_num),
    Real.rpow_sub (by norm_num)]

/-- Helper: zero-decimal rounding of a value at least one is at least
one. -/
theorem roundTE_ge_one (x : ℚ) (h : 1 ≤ x) : 1 ≤ roundTE x := by
  have hf : (1 : ℤ) ≤ Int.floor x := by
    rw [Int.le_floor]
    exact_mod_cast h
  unfold roundTE
  dsimp only
  split_ifs <;> omega

/-- Helper: for x ≥ 1000000 the normalized mantissa x / 10^decExp(x) is at
least one. -/
theorem mantissa_ge_one (x : ℚ) (h : 1000000 ≤ x) : 1 ≤ x / 10 ^ decExp x := by
  have hfl : (1000000 : ℤ) ≤ Int.floor x := by
    rw [Int.le_floor]
    exact_mod_cast h
  have hnf : Int.toNat (Int.floor x) ≠ 0 := by omega
  have hlog := Nat.pow_log_le_self 10 hnf
  have hkx : (10 : ℚ) ^ decExp x ≤ x := by
    have h1 : ((10 ^ Nat.log 10 (Int.toNat (Int.floor x)) : ℕ) : ℚ) ≤
        ((Int.toNat (Int.floor x) : ℕ) : ℚ) := by exact_mod_cast hlog
    have h2 : ((Int.toNat (Int.floor x) : ℕ) : ℚ) ≤ x := by
      have h3 : ((Int.toNat (Int.floor x) : ℤ) : ℚ) ≤ x := by
        rw [Int.toNat_of_nonneg (by omega)]
        exact Int.floor_le x
      exact_mod_cast h3
    have h4 : ((10 ^ Nat.log 10 (Int.toNat (Int.floor x)) : ℕ) : ℚ) =
        (10 : ℚ) ^ decExp x := by
      rw [decExp]
      push_cast
      ring
    linarith
  rw [one_le_div (by positivity)]
  exact hkx

/-- C7: format_time selects exactly one tier by the contiguous boundaries
1 second, 60 seconds, 3600 seconds, 86400 seconds, one year of 365.25 days
and one century of 100 years, passing duration / tier-unit to the
renderer; the renderer prints the value with zero decimal places when it
is below 1000000 and otherwise in exponential notation with a single-digit
mantissa and an explicit e+ marker. -/
theorem C7_format_time_tiers :
    (∀ t : ℚ, 0 ≤ t →
      (t < 1 → format_time t = "less than a second") ∧
      (1 ≤ t → t < 60 → format_time t = format_unit t "seconds") ∧
      (60 ≤ t → t < 3600 → format_time t = format_unit (t / MINUTE) "minutes") ∧
      (3600 ≤ t → t < 86400 → format_time t = format_unit (t / HOUR) "hours") ∧
      (86400 ≤ t → t < 31557600 → format_time t = format_unit (t / DAY) "days") ∧
      (31557600 ≤ t → t < 3155760000 → format_time t = format_unit (t / YEAR) "years") ∧
      (3155760000 ≤ t → format_time t = format_unit (t / CENTURY) "centuries")) ∧
    (∀ (x : ℚ) (u : String), 0 ≤ x → x < 1000000 →
      format_unit x u = toString (roundTE x) ++ " " ++ u) ∧
    (∀ (x : ℚ) (u : String), 1000000 ≤ x →
      ∃ (d : ℤ) (k : Nat), 1 ≤ d ∧ d ≤ 9 ∧
        format_unit x u = toString d ++ "e+" ++ toString k ++ " " ++ u) := by
  refine ⟨?_, ?_, ?_⟩
  · intro t ht
    refine ⟨?_, ?_, ?_, ?_, ?_, ?_, ?_⟩ <;>
      (try intro h1) <;> (try intro h2) <;>
      (unfold format_time) <;>
      (split_ifs with c1 c2 c3 c4 c5 c6 <;>
        first
          | rfl
          | (exfalso; norm_num [MINUTE, HOUR, DAY, YEAR, CENTURY] at *; linarith))
  · intro x u _ hx2
    unfold format_unit
    rw [if_pos hx2]
  · intro x u hx
    have hm : 1 ≤ x / 10 ^ decExp x := mantissa_ge_one x hx
    have hr : 1 ≤ roundTE (x / 10 ^ decExp x) := roundTE_ge_one _ hm
    unfold format_unit
    rw [if_neg (by linarith)]
    unfold fmtExp0
    by_cases h10 : 10 ≤ roundTE (x / 10 ^ decExp x)
    · rw [if_pos h10]
      exact ⟨1, decExp x + 1, le_refl 1, by norm_num, rfl⟩
    · rw [if_neg h10]
      exact ⟨roundTE (x / 10 ^ decExp x), decExp x, hr, by omega, rfl⟩

/-- Witness for C7 at the concrete durations named by the spec. -/
theorem C7_format_time_tiers_witness :
    format_time (1 / 2) = "less than a second" ∧
    format_time 45 = format_unit 45 "seconds" ∧
    format_unit 45 "seconds" = "45 seconds" ∧
    format_time 2000 = format_unit (2000 / MINUTE) "minutes" ∧
    format_unit (2000 / MINUTE) "minutes" = "33 minutes" := by
  have h45 : roundTE 45 = 45 := by
    unfold roundTE
    norm_num
  have h33 : roundTE (2000 / MINUTE) = 33 := by
    unfold roundTE MINUTE
    norm_num
  refine ⟨(C7_format_time_tiers.1 (1 / 2) (by norm_num)).1 (by norm_num),
    (C7_format_time_tiers.1 45 (by norm_num)).2.1 (by norm_num) (by norm_num),
    ?_,
    (C7_format_time_tiers.1 2000 (by norm_num)).2.2.1 (by norm_num) (by norm_num),
    ?_⟩
  · unfold format_unit
    rw [if_pos (by norm_num), h45]
    rfl
  · unfold format_unit
    rw [if_pos (by norm_num [MINUTE]), h33]
    rfl
